import Mathlib

/-!
Shallow embedding of the `solana-vue` composables (wallet-standard / @solana/kit
adapters for Vue) and proofs about their observable behaviour.

Modelling conventions:
* `Uint8Array` byte buffers are `List Nat` (each entry a byte value).
* JS objects with fixed shapes are Lean structures; a JS `undefined`/missing
  optional field is `Option.none`.
* A Vue `computed` body is a pure function of the resolved account value (and
  the chain identifier); evaluating the computed either throws (`Except.error`)
  or yields the computed value.  Reactive re-evaluation is captured by
  quantifying over all account values.
* The external wallet feature (the actual wallet) is an oracle parameter
  `feature : <input> → List <output>` (the array the feature call resolves to).
* Each signer method performs at most one underlying feature invocation, so a
  method run returns `Option <featureInput> × Except JsError <result>`: the
  first component records the single feature call made (`none` = the feature
  was never invoked).
* External helpers from `@solana/kit` / the wallet-standard registry
  (transaction codecs, compiled-message decoder, size assertion, lifetime
  fetcher, the account registry) are oracle parameters or identity-style
  wrappers: they are out of scope per the spec.
-/

namespace SolanaVue

/-- Byte buffers (`Uint8Array`) as lists of byte values. -/
abbrev Bytes := List Nat

/-- A `UiWalletAccount`: address, supported chain identifiers, supported feature names. -/
structure UiWalletAccount where
  address : String
  chains : List String
  features : List String
deriving DecidableEq, Repr

/-- The wallet-standard account resolved through the external ui-registry
(`getWalletAccountForUiWalletAccount_DO_NOT_USE_OR_YOU_WILL_BE_FIRED`); the
registry lookup itself is external, modelled as a wrapper around the account. -/
structure StandardAccount where
  underlying : UiWalletAccount
deriving DecidableEq, Repr

/-- External registry resolution of a `UiWalletAccount` to its standard account. -/
def getWalletAccountForUiWalletAccount (a : UiWalletAccount) : StandardAccount :=
  ⟨a⟩

/-- The `address()` helper of `@solana/kit`: asserts base58 validity and returns
the same string (validation is external; on the happy path it is the identity). -/
def kitAddress (s : String) : String := s

/-- `Number()` applied to a `bigint` option value: the numeric value.
(IEEE-754 rounding of huge values is outside this embedding.) -/
def jsNumber (n : Int) : Int := n

/-- Error codes raised by this codebase. -/
inductive ErrorCode
  | WALLET_ACCOUNT_CHAIN_UNSUPPORTED
  | SOLANA_ERROR_SIGNER_WALLET_MULTISIGN_UNIMPLEMENTED
deriving DecidableEq, Repr

/-- JS exceptions observable from the composables:  typed `WalletStandardError`
(with its context payload), typed `SolanaError`, or a plain `Error`. -/
inductive JsError
  | walletStandard (code : ErrorCode) (address : String) (chain : String)
      (featureName : String) (supportedChains : List String)
      (supportedFeatures : List String)
  | solana (code : ErrorCode)
  | plain (message : String)
deriving DecidableEq, Repr

/-- Feature name constant `SolanaSignTransaction`. -/
def SolanaSignTransaction : String := "solana:signTransaction"

/-- Feature name constant `SolanaSignAndSendTransaction`. -/
def SolanaSignAndSendTransaction : String := "solana:signAndSendTransaction"

/-- Feature name constant `SolanaSignMessage`. -/
def SolanaSignMessage : String := "solana:signMessage"

/-! ## Signature dictionaries

A `SignatureDictionary` is a JS object mapping addresses to signature bytes.
JS objects have unique keys; we model them as association lists, property read
as first-match lookup, and the computed-key update `{ ...d, [k]: v }` as
replace-in-place-or-append. -/

/-- Signature dictionary: address to raw signature bytes. -/
abbrev SigDict := List (String × Bytes)

/-- JS property read `d[k]`: `none` models `undefined`. -/
def dictGet (d : SigDict) (k : String) : Option Bytes :=
  (d.find? (fun p => p.1 == k)).map (fun p => p.2)

/-- JS object spread-with-computed-key `{ ...d, [k]: v }`: the entry for `k` is
replaced in place when present (JS keys are unique), appended otherwise. -/
def dictSet : SigDict → String → Bytes → SigDict
  | [], k, v => [(k, v)]
  | p :: rest, k, v => if p.1 = k then (k, v) :: rest else p :: dictSet rest k v

/-! ## `useSignTransaction` -/

/-- The `options` field of the composable's `Input` type. -/
structure SignTxOptionsIn where
  minContextSlot : Option Int
deriving DecidableEq, Repr

/-- The `Input` accepted by the function `useSignTransaction` returns.  The
fields of `SolanaSignTransactionInput` other than `account`/`chain`/`options`
are exactly `transaction`. -/
structure SignTxInput where
  transaction : Bytes
  options : Option SignTxOptionsIn
deriving DecidableEq, Repr

/-- The numeric `options` object built for the feature call. -/
structure SignTxOptionsOut where
  minContextSlot : Int
deriving DecidableEq, Repr

/-- The object forwarded to the wallet's `signTransaction` feature. -/
structure SignTxFeatureInput where
  transaction : Bytes
  account : StandardAccount
  chain : String
  options : Option SignTxOptionsOut
deriving DecidableEq, Repr

/-- One element of the array the `signTransaction` feature resolves to. -/
structure SignTxOutput where
  signedTransaction : Bytes
deriving DecidableEq, Repr

/-- The data captured by the async closure `useSignTransaction` returns:
the resolved standard account and the requested chain (the feature itself is
looked up externally and supplied as an oracle at call time). -/
structure SignTransactionClosure where
  standardAccount : StandardAccount
  chainId : String
deriving DecidableEq, Repr

/-- Builds `inputWithAccountAndChain`: destructures `options` off the input,
spreads the rest, adds `account` and `chain`, and conditionally adds a numeric
`options` object when `options?.minContextSlot != null`. -/
def signTransactionForward (c : SignTransactionClosure) (input : SignTxInput) :
    SignTxFeatureInput :=
  let minContextSlot := input.options.bind (fun o => o.minContextSlot)
  { transaction := input.transaction
    account := c.standardAccount
    chain := c.chainId
    options :=
      match minContextSlot with
      | some m => some { minContextSlot := jsNumber m }
      | none => none }

/-- Calling the closure: forwards the built input to the feature and returns
`results[0]` (`none` models `undefined` when the array is empty). -/
def SignTransactionClosure.call (c : SignTransactionClosure)
    (feature : SignTxFeatureInput → List SignTxOutput) (input : SignTxInput) :
    SignTxFeatureInput × Option SignTxOutput :=
  let fwd := signTransactionForward c input
  (fwd, (feature fwd).head?)

/-- The body of the `computed` returned by `useSignTransaction`: null account
propagates as null; an unsupported chain throws a typed `WalletStandardError`;
otherwise the signing closure is produced. -/
def useSignTransaction_compute (account : Option UiWalletAccount)
    (chainId : String) : Except JsError (Option SignTransactionClosure) :=
  match account with
  | none => .ok none
  | some account =>
    if account.chains.contains chainId then
      .ok (some { standardAccount := getWalletAccountForUiWalletAccount account
                  chainId := chainId })
    else
      .error (.walletStandard .WALLET_ACCOUNT_CHAIN_UNSUPPORTED account.address
        chainId SolanaSignTransaction account.chains account.features)

/-! ## `useSignAndSendTransaction` -/

/-- The `Input` accepted by the function `useSignAndSendTransaction` returns. -/
structure SignSendInput where
  transaction : Bytes
  options : Option SignTxOptionsIn
deriving DecidableEq, Repr

/-- The object forwarded to the wallet's `signAndSendTransaction` feature. -/
structure SignSendFeatureInput where
  transaction : Bytes
  account : StandardAccount
  chain : String
  options : Option SignTxOptionsOut
deriving DecidableEq, Repr

/-- One element of the array the `signAndSendTransaction` feature resolves to. -/
structure SignSendOutput where
  signature : Bytes
deriving DecidableEq, Repr

/-- The data captured by the closure `useSignAndSendTransaction` returns. -/
structure SignAndSendTransactionClosure where
  standardAccount : StandardAccount
  chainId : String
deriving DecidableEq, Repr

/-- Builds `inputWithChainAndAccount` for `useSignAndSendTransaction`. -/
def signAndSendTransactionForward (c : SignAndSendTransactionClosure)
    (input : SignSendInput) : SignSendFeatureInput :=
  let minContextSlot := input.options.bind (fun o => o.minContextSlot)
  { transaction := input.transaction
    account := c.standardAccount
    chain := c.chainId
    options :=
      match minContextSlot with
      | some m => some { minContextSlot := jsNumber m }
      | none => none }

/-- Calling the closure: forwards to the feature and returns `results[0]`. -/
def SignAndSendTransactionClosure.call (c : SignAndSendTransactionClosure)
    (feature : SignSendFeatureInput → List SignSendOutput) (input : SignSendInput) :
    SignSendFeatureInput × Option SignSendOutput :=
  let fwd := signAndSendTransactionForward c input
  (fwd, (feature fwd).head?)

/-- The body of the `computed` returned by `useSignAndSendTransaction`. -/
def useSignAndSendTransaction_compute (account : Option UiWalletAccount)
    (chainId : String) : Except JsError (Option SignAndSendTransactionClosure) :=
  match account with
  | none => .ok none
  | some account =>
    if account.chains.contains chainId then
      .ok (some { standardAccount := getWalletAccountForUiWalletAccount account
                  chainId := chainId })
    else
      .error (.walletStandard .WALLET_ACCOUNT_CHAIN_UNSUPPORTED account.address
        chainId SolanaSignAndSendTransaction account.chains account.features)

/-! ## `useSignMessage` -/

/-- The `Input` accepted by the function `useSignMessage` returns. -/
structure SignMsgInput where
  message : Bytes
deriving DecidableEq, Repr

/-- The object forwarded to the wallet's `signMessage` feature. -/
structure SignMsgFeatureInput where
  message : Bytes
  account : StandardAccount
deriving DecidableEq, Repr

/-- One raw element of the array the `signMessage` feature resolves to
(`signatureType` is dropped by the wrapper). -/
structure SignMsgRawOutput where
  signedMessage : Bytes
  signature : Bytes
  signatureType : Option String
deriving DecidableEq, Repr

/-- The wrapper's output: the raw output minus `signatureType`. -/
structure SignMsgOutput where
  signedMessage : Bytes
  signature : Bytes
deriving DecidableEq, Repr

/-- The data captured by the closure `useSignMessage` returns. -/
structure SignMessageClosure where
  standardAccount : StandardAccount
deriving DecidableEq, Repr

/-- Builds `inputWithAccount` for `useSignMessage`. -/
def signMessageForward (c : SignMessageClosure) (input : SignMsgInput) :
    SignMsgFeatureInput :=
  { message := input.message, account := c.standardAccount }

/-- Calling the closure: forwards to the feature, takes `results[0]` and drops
`signatureType`.  (`none` models the `undefined` of an empty result array,
whose destructuring throws in the callers.) -/
def SignMessageClosure.call (c : SignMessageClosure)
    (feature : SignMsgFeatureInput → List SignMsgRawOutput) (input : SignMsgInput) :
    SignMsgFeatureInput × Option SignMsgOutput :=
  let fwd := signMessageForward c input
  (fwd, (feature fwd).head?.map (fun r =>
    { signedMessage := r.signedMessage, signature := r.signature }))

/-- The body of the `computed` returned by `useSignMessage`: no chain check. -/
def useSignMessage_compute (account : Option UiWalletAccount) :
    Except JsError (Option SignMessageClosure) :=
  match account with
  | none => .ok none
  | some account =>
    .ok (some { standardAccount := getWalletAccountForUiWalletAccount account })

/-! ## `@solana/kit` data shapes used by the signers -/

/-- A transaction lifetime constraint (`blockhash` or durable `nonce`). -/
inductive Lifetime
  | blockhash (value : String)
  | nonce (value : String)
deriving DecidableEq, Repr

/-- `'blockhash' in lifetime ? lifetime.blockhash : lifetime.nonce`. -/
def Lifetime.token : Lifetime → String
  | .blockhash v => v
  | .nonce v => v

/-- A `@solana/kit` `Transaction`: message bytes, signature dictionary, and an
optional lifetime constraint (`'lifetimeConstraint' in transaction`). -/
structure KitTransaction where
  messageBytes : Bytes
  signatures : SigDict
  lifetimeConstraint : Option Lifetime
deriving DecidableEq, Repr

/-- A `SignableMessage`: content bytes plus a signature dictionary. -/
structure SignableMessage where
  content : Bytes
  signatures : SigDict
deriving DecidableEq, Repr

/-- A compiled transaction message, as far as this code inspects it. -/
structure CompiledMsg where
  lifetimeToken : String
deriving DecidableEq, Repr

/-- `uint8ArraysEqual` from `useWalletAccountTransactionSigner`: length check
plus `every((value, index) => value === arr2[index])`. -/
def uint8ArraysEqual (a b : Bytes) : Bool :=
  a.length == b.length &&
    (List.range a.length).all (fun i => a.get? i == b.get? i)

/-- `messageWasModified` in `modifyAndSignMessages`: lengths differ, or
`some((originalByte, ii) => originalByte !== signedMessage[ii])` over the
original's indices (an out-of-range index reads `undefined` and so differs). -/
def jsMessageWasModified (original signed : Bytes) : Bool :=
  original.length != signed.length ||
    (List.range original.length).any (fun ii => original.get? ii != signed.get? ii)

/-- `originalSignature.every((originalByte, ii) => originalByte === signature[ii])`:
iterates only over the recorded signature's indices, so a recorded signature
that is a strict prefix of the fresh one also passes. -/
def jsSignatureMatches (originalSignature signature : Bytes) : Bool :=
  (List.range originalSignature.length).all
    (fun ii => originalSignature.get? ii == signature.get? ii)

/-- `signatureIsNew` in `modifyAndSignMessages`:
`!originalSignatureMap[address]?.every(...)` — `true` when no signature is
recorded for the address, or the recorded one does not match. -/
def jsSignatureIsNew (originalSignatureMap : SigDict) (addr : String)
    (signature : Bytes) : Bool :=
  match dictGet originalSignatureMap addr with
  | none => true
  | some os => ! jsSignatureMatches os signature

/-! ## `useWalletAccountTransactionSendingSigner` -/

/-- The `TransactionSendingSigner` produced: its address and captured data.
Note: the source computes no chain-support check before building this signer. -/
structure SendingSigner where
  address : String
  standardAccount : StandardAccount
  chainId : String
deriving DecidableEq, Repr

/-- The body of the `computed` returned by
`useWalletAccountTransactionSendingSigner`: null propagates; otherwise the
signer is built directly from the account — the chain list is never consulted. -/
def useWalletAccountTransactionSendingSigner_compute
    (account : Option UiWalletAccount) (chainId : String) :
    Except JsError (Option SendingSigner) :=
  match account with
  | none => .ok none
  | some uiAccount =>
    .ok (some { address := kitAddress uiAccount.address
                standardAccount := getWalletAccountForUiWalletAccount uiAccount
                chainId := chainId })

/-- `signAndSendTransactions`: rejects batches of more than one transaction
before any feature call, resolves an empty batch to `[]`, and otherwise
encodes the single transaction and forwards it to the
`signAndSendTransaction` feature.  `txEncoder` is the external
`getTransactionEncoder().encode`; `cfgMinContextSlot` models
`config.minContextSlot` (`abortSignal` is out of scope). -/
def SendingSigner.signAndSendTransactions (s : SendingSigner)
    (txEncoder : KitTransaction → Bytes)
    (feature : SignSendFeatureInput → List SignSendOutput)
    (transactions : List KitTransaction) (cfgMinContextSlot : Option Int) :
    Option SignSendFeatureInput × Except JsError (List Bytes) :=
  match transactions with
  | _ :: _ :: _ =>
    (none, .error (.solana .SOLANA_ERROR_SIGNER_WALLET_MULTISIGN_UNIMPLEMENTED))
  | [] => (none, .ok [])
  | [transaction] =>
    let wireTransactionBytes := txEncoder transaction
    let input : SignSendFeatureInput :=
      { account := s.standardAccount
        chain := s.chainId
        transaction := wireTransactionBytes
        options := cfgMinContextSlot.map (fun m => { minContextSlot := jsNumber m }) }
    match (feature input).head? with
    | none => (some input, .error (.plain "TypeError: results[0] is undefined"))
    | some r => (some input, .ok [r.signature])

/-! ## `useWalletAccountTransactionPartialSigner` -/

/-- The `TransactionPartialSigner` produced: address plus captured data. -/
structure TxPartSigner where
  address : String
  account : UiWalletAccount
  signTx : SignTransactionClosure
deriving DecidableEq, Repr

/-- The body of the `computed` returned by
`useWalletAccountTransactionPartialSigner`: a null account short-circuits to
null before the inner `signTransaction` computed is read; otherwise reading the
inner computed propagates its chain-unsupported error. -/
def useWalletAccountTransactionPartialSigner_compute
    (account : Option UiWalletAccount) (chainId : String) :
    Except JsError (Option TxPartSigner) :=
  match account with
  | none => .ok none
  | some a =>
    match useSignTransaction_compute (some a) chainId with
    | .error e => .error e
    | .ok none => .ok none
    | .ok (some c) =>
      .ok (some { address := kitAddress a.address, account := a, signTx := c })

/-- `signTransactions`: single-item contract, empty-batch short-circuit, then
encode → inner `signTransaction` closure → decode → extract this signer's
signature into a fresh single-entry dictionary.  `txCodecEncode`/`txCodecDecode`
are the external `getTransactionCodec()`; the signer config only spreads into
top-level fields of the inner input, so the inner `options` stays absent. -/
def TxPartSigner.signTransactions (s : TxPartSigner)
    (txCodecEncode : KitTransaction → Bytes)
    (txCodecDecode : Bytes → KitTransaction)
    (feature : SignTxFeatureInput → List SignTxOutput)
    (transactions : List KitTransaction) :
    Option SignTxFeatureInput × Except JsError (List SigDict) :=
  match transactions with
  | _ :: _ :: _ =>
    (none, .error (.solana .SOLANA_ERROR_SIGNER_WALLET_MULTISIGN_UNIMPLEMENTED))
  | [] => (none, .ok [])
  | [transaction] =>
    let wireTransactionBytes := txCodecEncode transaction
    let inputWithOptions : SignTxInput :=
      { transaction := wireTransactionBytes, options := none }
    let (fwd, out) := s.signTx.call feature inputWithOptions
    match out with
    | none =>
      (some fwd, .error (.plain "TypeError: cannot destructure signedTransaction"))
    | some o =>
      let decodedSignedTransaction := txCodecDecode o.signedTransaction
      let signerAddress := kitAddress s.account.address
      match dictGet decodedSignedTransaction.signatures signerAddress with
      | none =>
        (some fwd, .error (.plain ("Signature not found for address " ++
          s.account.address ++ " in signed transaction")))
      | some signature =>
        (some fwd, .ok [[(signerAddress, signature)]])

/-! ## `useWalletAccountMessagePartialSigner` -/

/-- The `MessagePartialSigner` produced: address plus captured data. -/
structure MsgPartSigner where
  address : String
  account : UiWalletAccount
  signMsg : SignMessageClosure
deriving DecidableEq, Repr

/-- The body of the `computed` returned by
`useWalletAccountMessagePartialSigner`. -/
def useWalletAccountMessagePartialSigner_compute
    (account : Option UiWalletAccount) :
    Except JsError (Option MsgPartSigner) :=
  match account with
  | none => .ok none
  | some a =>
    match useSignMessage_compute (some a) with
    | .error e => .error e
    | .ok none => .ok none
    | .ok (some c) =>
      .ok (some { address := kitAddress a.address, account := a, signMsg := c })

/-- `signMessages`: single-item contract, empty-batch short-circuit, then the
inner `signMessage` closure; result is a fresh single-entry dictionary. -/
def MsgPartSigner.signMessages (s : MsgPartSigner)
    (feature : SignMsgFeatureInput → List SignMsgRawOutput)
    (messages : List SignableMessage) :
    Option SignMsgFeatureInput × Except JsError (List SigDict) :=
  match messages with
  | _ :: _ :: _ =>
    (none, .error (.solana .SOLANA_ERROR_SIGNER_WALLET_MULTISIGN_UNIMPLEMENTED))
  | [] => (none, .ok [])
  | [message] =>
    let input : SignMsgInput := { message := message.content }
    let (fwd, out) := s.signMsg.call feature input
    match out with
    | none => (some fwd, .error (.plain "TypeError: cannot destructure signature"))
    | some o =>
      let signerAddress := kitAddress s.account.address
      (some fwd, .ok [[(signerAddress, o.signature)]])

/-! ## `useWalletAccountMessageModifyingSigner` -/

/-- The `MessageModifyingSigner` produced: address plus captured data. -/
structure MsgModSigner where
  address : String
  account : UiWalletAccount
  signMsg : SignMessageClosure
deriving DecidableEq, Repr

/-- The body of the `computed` returned by
`useWalletAccountMessageModifyingSigner`. -/
def useWalletAccountMessageModifyingSigner_compute
    (account : Option UiWalletAccount) :
    Except JsError (Option MsgModSigner) :=
  match account with
  | none => .ok none
  | some a =>
    match useSignMessage_compute (some a) with
    | .error e => .error e
    | .ok none => .ok none
    | .ok (some c) =>
      .ok (some { address := kitAddress a.address, account := a, signMsg := c })

/-- `modifyAndSignMessages`: single-item contract; empty batch returns the
input array; otherwise sign the single message's content, detect modification
and signature freshness, return the original array untouched when neither
changed, and otherwise build the next signature dictionary — a fresh
single-entry one when the message was modified, the spread merge otherwise. -/
def MsgModSigner.modifyAndSignMessages (s : MsgModSigner)
    (feature : SignMsgFeatureInput → List SignMsgRawOutput)
    (messages : List SignableMessage) :
    Option SignMsgFeatureInput × Except JsError (List SignableMessage) :=
  match messages with
  | _ :: _ :: _ =>
    (none, .error (.solana .SOLANA_ERROR_SIGNER_WALLET_MULTISIGN_UNIMPLEMENTED))
  | [] => (none, .ok [])
  | [m] =>
    let originalMessage := m.content
    let originalSignatureMap := m.signatures
    let input : SignMsgInput := { message := originalMessage }
    let (fwd, out) := s.signMsg.call feature input
    match out with
    | none => (some fwd, .error (.plain "TypeError: cannot destructure signature"))
    | some o =>
      let signedMessage := o.signedMessage
      let signature := o.signature
      let messageWasModified := jsMessageWasModified originalMessage signedMessage
      let signatureIsNew :=
        jsSignatureIsNew originalSignatureMap s.account.address signature
      if !signatureIsNew && !messageWasModified then
        (some fwd, .ok [m])
      else
        let nextSignatureMap :=
          if messageWasModified then [(s.account.address, signature)]
          else dictSet originalSignatureMap s.account.address signature
        (some fwd, .ok [{ content := signedMessage, signatures := nextSignatureMap }])

/-! ## `useWalletAccountTransactionSigner` (the `TransactionModifyingSigner`) -/

/-- The `TransactionModifyingSigner` produced: address plus captured data. -/
structure TxModSigner where
  address : String
  account : UiWalletAccount
  signTx : SignTransactionClosure
deriving DecidableEq, Repr

/-- The body of the `computed` returned by `useWalletAccountTransactionSigner`. -/
def useWalletAccountTransactionSigner_compute
    (account : Option UiWalletAccount) (chainId : String) :
    Except JsError (Option TxModSigner) :=
  match account with
  | none => .ok none
  | some a =>
    match useSignTransaction_compute (some a) chainId with
    | .error e => .error e
    | .ok none => .ok none
    | .ok (some c) =>
      .ok (some { address := kitAddress a.address, account := a, signTx := c })

/-- `modifyAndSignTransactions`: single-item contract, empty-batch
short-circuit, then encode → inner `signTransaction` → decode → size assertion
→ lifetime reconciliation.  External collaborators are oracles: the codec, the
size assertion (`sizeOk`), the compiled-message decoder, and the async
lifetime fetcher (`freshLifetime`). -/
def TxModSigner.modifyAndSignTransactions (s : TxModSigner)
    (txCodecEncode : KitTransaction → Bytes)
    (txCodecDecode : Bytes → KitTransaction)
    (sizeOk : KitTransaction → Bool)
    (compiledDecode : Bytes → CompiledMsg)
    (freshLifetime : CompiledMsg → Lifetime)
    (feature : SignTxFeatureInput → List SignTxOutput)
    (transactions : List KitTransaction) :
    Option SignTxFeatureInput × Except JsError (List KitTransaction) :=
  match transactions with
  | _ :: _ :: _ =>
    (none, .error (.solana .SOLANA_ERROR_SIGNER_WALLET_MULTISIGN_UNIMPLEMENTED))
  | [] => (none, .ok [])
  | [transaction] =>
    let wireTransactionBytes := txCodecEncode transaction
    let inputWithOptions : SignTxInput :=
      { transaction := wireTransactionBytes, options := none }
    let (fwd, out) := s.signTx.call feature inputWithOptions
    match out with
    | none =>
      (some fwd, .error (.plain "TypeError: cannot destructure signedTransaction"))
    | some o =>
      let decodedSignedTransaction := txCodecDecode o.signedTransaction
      if ! sizeOk decodedSignedTransaction then
        (some fwd, .error (.plain "transaction exceeds size limit"))
      else
        match transaction.lifetimeConstraint with
        | some existingLifetime =>
          if uint8ArraysEqual decodedSignedTransaction.messageBytes
              transaction.messageBytes then
            (some fwd, .ok [{ decodedSignedTransaction with
              lifetimeConstraint := some existingLifetime }])
          else
            let compiledTransactionMessage :=
              compiledDecode decodedSignedTransaction.messageBytes
            if compiledTransactionMessage.lifetimeToken == existingLifetime.token then
              (some fwd, .ok [{ decodedSignedTransaction with
                lifetimeConstraint := some existingLifetime }])
            else
              (some fwd, .ok [{ decodedSignedTransaction with
                lifetimeConstraint := some (freshLifetime
                  (compiledDecode decodedSignedTransaction.messageBytes)) }])
        | none =>
          (some fwd, .ok [{ decodedSignedTransaction with
            lifetimeConstraint := some (freshLifetime
              (compiledDecode decodedSignedTransaction.messageBytes)) }])

/-! ## Combined signers -/

/-- The combined signer `useWalletAccountPartialSigner` returns:
`{ ...txSigner, ...msgSigner, address: txSigner.address }`. -/
structure CombinedPartSigner where
  txSigner : TxPartSigner
  msgSigner : MsgPartSigner
  address : String
deriving DecidableEq, Repr

/-- The body of the `computed` returned by `useWalletAccountPartialSigner`:
both inner computeds are read (errors propagate in order), then both must be
non-null. -/
def useWalletAccountPartialSigner_compute (account : Option UiWalletAccount)
    (chainId : String) : Except JsError (Option CombinedPartSigner) :=
  match useWalletAccountTransactionPartialSigner_compute account chainId with
  | .error e => .error e
  | .ok txOpt =>
    match useWalletAccountMessagePartialSigner_compute account with
    | .error e => .error e
    | .ok msgOpt =>
      match txOpt, msgOpt with
      | some t, some m =>
        .ok (some { txSigner := t, msgSigner := m, address := t.address })
      | _, _ => .ok none

/-- The combined signer `useWalletAccountModifyingSigner` returns.  The index
exports `useWalletAccountTransactionModifyingSigner`; the in-repo
implementation of that signer shape is `useWalletAccountTransactionSigner`. -/
structure CombinedModSigner where
  txSigner : TxModSigner
  msgSigner : MsgModSigner
  address : String
deriving DecidableEq, Repr

/-- The body of the `computed` returned by `useWalletAccountModifyingSigner`. -/
def useWalletAccountModifyingSigner_compute (account : Option UiWalletAccount)
    (chainId : String) : Except JsError (Option CombinedModSigner) :=
  match useWalletAccountTransactionSigner_compute account chainId with
  | .error e => .error e
  | .ok txOpt =>
    match useWalletAccountMessageModifyingSigner_compute account with
    | .error e => .error e
    | .ok msgOpt =>
      match txOpt, msgOpt with
      | some t, some m =>
        .ok (some { txSigner := t, msgSigner := m, address := t.address })
      | _, _ => .ok none

/-- Modelled from the spec: `useWalletAccountMessageSigner`, imported by
`useWalletAccountSigner`, has no source file in the repository snapshot.  Per
the spec, every composable resolves the account reference to null when absent
and otherwise to a signer object whose address equals the resolved account's
address. -/
structure MessageSignerModel where
  address : String
deriving DecidableEq, Repr

/-- Modelled from the spec: the `computed` body of the missing
`useWalletAccountMessageSigner` (null propagation plus an address-carrying
signer object). -/
def useWalletAccountMessageSigner_model (account : Option UiWalletAccount) :
    Except JsError (Option MessageSignerModel) :=
  match account with
  | none => .ok none
  | some a => .ok (some { address := kitAddress a.address })

/-- The combined `Wallet` signer `useWalletAccountSigner` returns:
`{ ...txSigner, ...msgSigner, address: txSigner.address }`. -/
structure WalletSigner where
  txSigner : SendingSigner
  msgSigner : MessageSignerModel
  address : String
deriving DecidableEq, Repr

/-- The body of the `computed` returned by `useWalletAccountSigner`. -/
def useWalletAccountSigner_compute (account : Option UiWalletAccount)
    (chainId : String) : Except JsError (Option WalletSigner) :=
  match useWalletAccountTransactionSendingSigner_compute account chainId with
  | .error e => .error e
  | .ok txOpt =>
    match useWalletAccountMessageSigner_model account with
    | .error e => .error e
    | .ok msgOpt =>
      match txOpt, msgOpt with
      | some t, some m =>
        .ok (some { txSigner := t, msgSigner := m, address := t.address })
      | _, _ => .ok none

/-! ## Base64 (the platform's `atob` / `btoa`)

`useSolanaTransaction` decodes its input string with
`Uint8Array.from(atob(transaction), c => c.charCodeAt(0))` and re-encodes the
wallet's signed bytes with `btoa(String.fromCharCode(...signedBytes))`.  We
embed the standard base64 codec on byte lists directly: `base64Decode` is the
composition of `atob` with `charCodeAt`, `base64Encode` the composition of
`fromCharCode` with `btoa`. -/

/-- The base64 alphabet character for a sextet value. -/
def base64EncodeChar (n : Nat) : Char :=
  if n < 26 then Char.ofNat (65 + n)
  else if n < 52 then Char.ofNat (97 + (n - 26))
  else if n < 62 then Char.ofNat (48 + (n - 52))
  else if n = 62 then '+'
  else '/'

/-- The sextet value of a base64 alphabet character (`none` for an invalid
character, on which `atob` throws). -/
def base64DecodeChar (c : Char) : Option Nat :=
  if 'A' ≤ c ∧ c ≤ 'Z' then some (c.toNat - 65)
  else if 'a' ≤ c ∧ c ≤ 'z' then some (c.toNat - 97 + 26)
  else if '0' ≤ c ∧ c ≤ '9' then some (c.toNat - 48 + 52)
  else if c = '+' then some 62
  else if c = '/' then some 63
  else none

/-- Base64 encoding of a byte list, with `=` padding. -/
def base64Encode : List Nat → List Char
  | [] => []
  | [b1] =>
    [base64EncodeChar (b1 / 4), base64EncodeChar (b1 % 4 * 16), '=', '=']
  | [b1, b2] =>
    [base64EncodeChar (b1 / 4), base64EncodeChar (b1 % 4 * 16 + b2 / 16),
     base64EncodeChar (b2 % 16 * 4), '=']
  | b1 :: b2 :: b3 :: rest =>
    base64EncodeChar (b1 / 4) :: base64EncodeChar (b1 % 4 * 16 + b2 / 16) ::
      base64EncodeChar (b2 % 16 * 4 + b3 / 64) :: base64EncodeChar (b3 % 64) ::
      base64Encode rest

/-- Base64 decoding of a character list to a byte list (`none` models the
`InvalidCharacterError` that `atob` throws on malformed input). -/
def base64Decode : List Char → Option (List Nat)
  | [] => some []
  | c1 :: c2 :: c3 :: c4 :: rest =>
    if c3 = '=' ∧ c4 = '=' ∧ rest = [] then
      (base64DecodeChar c1).bind fun s1 =>
      (base64DecodeChar c2).bind fun s2 =>
      some [s1 * 4 + s2 / 16]
    else if c4 = '=' ∧ rest = [] then
      (base64DecodeChar c1).bind fun s1 =>
      (base64DecodeChar c2).bind fun s2 =>
      (base64DecodeChar c3).bind fun s3 =>
      some [s1 * 4 + s2 / 16, s2 % 16 * 16 + s3 / 4]
    else
      (base64DecodeChar c1).bind fun s1 =>
      (base64DecodeChar c2).bind fun s2 =>
      (base64DecodeChar c3).bind fun s3 =>
      (base64DecodeChar c4).bind fun s4 =>
      (base64Decode rest).bind fun bs =>
      some ((s1 * 4 + s2 / 16) :: (s2 % 16 * 16 + s3 / 4) :: (s3 % 4 * 64 + s4) :: bs)
  | _ => none

/-! ## `useSolanaTransaction` -/

/-- The initial value of the `signing` ref: `ref(false)`. -/
def useSolanaTransaction_initialSigning : Bool := false

/-- One call to the `signTransaction` function of `useSolanaTransaction`.
Returns the sequence of assignments to the `signing` flag (the guard throws
before the `try`, so without a connected account the flag is never written; the
`try`/`finally` writes `true` on entry and `false` on every exit, resolution
and rejection alike), the single feature invocation made if any, and the
result.  `transaction` is the base64-encoded wire transaction as characters. -/
def useSolanaTransaction_signTransaction (account : Option UiWalletAccount)
    (feature : SignTxFeatureInput → List SignTxOutput)
    (transaction : List Char) (optChain : Option String) :
    List Bool × Option SignTxFeatureInput × Except JsError (List Char) :=
  match account with
  | none => ([], none, .error (.plain "No wallet account connected"))
  | some account =>
    let standardAccount := getWalletAccountForUiWalletAccount account
    match base64Decode transaction with
    | none => ([true, false], none, .error (.plain "InvalidCharacterError"))
    | some wireBytes =>
      let chain := optChain.getD "solana:devnet"
      let input : SignTxFeatureInput :=
        { account := standardAccount
          transaction := wireBytes
          chain := chain
          options := none }
      match (feature input).head? with
      | none =>
        ([true, false], some input, .error (.plain "No signed transaction returned"))
      | some r =>
        ([true, false], some input, .ok (base64Encode r.signedTransaction))

/-! ## Helper lemmas -/

theorem dictGet_cons (p : String × Bytes) (l : SigDict) (k : String) :
    dictGet (p :: l) k = if p.1 == k then some p.2 else dictGet l k := by
  by_cases h : p.1 == k
  · simp [dictGet, List.find?_cons_of_pos _ h, h]
  · simp [dictGet, List.find?_cons_of_neg _ h, h]

theorem dictGet_dictSet_self (d : SigDict) (k : String) (v : Bytes) :
    dictGet (dictSet d k v) k = some v := by
  induction d with
  | nil => simp [dictSet, dictGet]
  | cons p rest ih =>
    by_cases hk : p.1 = k
    · simp [dictSet, hk, dictGet_cons]
    · have hk' : (p.1 == k) = false := beq_eq_false_iff_ne.mpr hk
      simp [dictSet, hk, dictGet_cons, hk', ih]

theorem dictGet_dictSet_ne (d : SigDict) (k k' : String) (v : Bytes)
    (hne : k' ≠ k) : dictGet (dictSet d k v) k' = dictGet d k' := by
  induction d with
  | nil =>
    have : (k == k') = false := beq_eq_false_iff_ne.mpr (Ne.symm hne)
    simp [dictSet, dictGet_cons, this, dictGet]
  | cons p rest ih =>
    by_cases hk : p.1 = k
    · have h1 : (k == k') = false := beq_eq_false_iff_ne.mpr (Ne.symm hne)
      have h2 : (p.1 == k') = false := by
        subst hk; exact beq_eq_false_iff_ne.mpr (Ne.symm hne)
      simp [dictSet, hk, dictGet_cons, h1, h2]
    · simp [dictSet, hk, dictGet_cons, ih]

theorem mem_dictSet_of_ne (d : SigDict) (k : String) (v : Bytes)
    (p : String × Bytes) (hp : p ∈ d) (hne : p.1 ≠ k) : p ∈ dictSet d k v := by
  induction d with
  | nil => cases hp
  | cons q rest ih =>
    rcases List.mem_cons.mp hp with rfl | hmem
    · by_cases hq : p.1 = k
      · exact absurd hq hne
      · simp [dictSet, hq]
    · by_cases hq : q.1 = k
      · simp only [dictSet, if_pos hq]
        exact List.mem_cons_of_mem _ hmem
      · simp only [dictSet, if_neg hq]
        exact List.mem_cons_of_mem _ (ih hmem)

theorem jsMessageWasModified_self (a : Bytes) :
    jsMessageWasModified a a = false := by
  simp [jsMessageWasModified]

theorem jsSignatureMatches_self (s : Bytes) :
    jsSignatureMatches s s = true := by
  simp [jsSignatureMatches]

/-! ## Base64 lemmas -/

theorem base64DecodeChar_encodeChar {n : Nat} (h : n < 64) :
    base64DecodeChar (base64EncodeChar n) = some n := by
  interval_cases n <;> decide

theorem base64EncodeChar_ne_pad {n : Nat} (h : n < 64) :
    base64EncodeChar n ≠ '=' := by
  interval_cases n <;> decide

theorem base64_roundTrip (bs : List Nat) (h : ∀ b ∈ bs, b < 256) :
    base64Decode (base64Encode bs) = some bs := by
  induction bs using base64Encode.induct with
  | case1 => rfl
  | case2 b1 =>
    have hb1 : b1 < 256 := h b1 (by simp)
    have e1 := base64DecodeChar_encodeChar (n := b1 / 4) (by omega)
    have e2 := base64DecodeChar_encodeChar (n := b1 % 4 * 16) (by omega)
    simp only [base64Encode, base64Decode, and_self, and_true, ite_true]
    rw [e1, e2]
    simp only [Option.some_bind, Option.some.injEq, List.cons.injEq, and_true]
    omega
  | case3 b1 b2 =>
    have hb1 : b1 < 256 := h b1 (by simp)
    have hb2 : b2 < 256 := h b2 (by simp)
    have e1 := base64DecodeChar_encodeChar (n := b1 / 4) (by omega)
    have e2 := base64DecodeChar_encodeChar (n := b1 % 4 * 16 + b2 / 16) (by omega)
    have e3 := base64DecodeChar_encodeChar (n := b2 % 16 * 4) (by omega)
    have hne : ¬(base64EncodeChar (b2 % 16 * 4) = '=') :=
      base64EncodeChar_ne_pad (n := b2 % 16 * 4) (by omega)
    simp only [base64Encode, base64Decode, and_self, and_true, ite_true]
    rw [if_neg hne, e1, e2, e3]
    simp only [Option.some_bind, Option.some.injEq, List.cons.injEq, and_true]
    exact ⟨by omega, by omega⟩
  | case4 b1 b2 b3 rest ih =>
    have hb1 : b1 < 256 := h b1 (by simp)
    have hb2 : b2 < 256 := h b2 (by simp)
    have hb3 : b3 < 256 := h b3 (by simp)
    have hrest : ∀ b ∈ rest, b < 256 := fun b hb => h b (by simp [hb])
    have e1 := base64DecodeChar_encodeChar (n := b1 / 4) (by omega)
    have e2 := base64DecodeChar_encodeChar (n := b1 % 4 * 16 + b2 / 16) (by omega)
    have e3 := base64DecodeChar_encodeChar (n := b2 % 16 * 4 + b3 / 64) (by omega)
    have e4 := base64DecodeChar_encodeChar (n := b3 % 64) (by omega)
    have hne1 : ¬(base64EncodeChar (b2 % 16 * 4 + b3 / 64) = '=' ∧
        base64EncodeChar (b3 % 64) = '=' ∧ base64Encode rest = []) := fun hc =>
      base64EncodeChar_ne_pad (n := b2 % 16 * 4 + b3 / 64) (by omega) hc.1
    have hne2 : ¬(base64EncodeChar (b3 % 64) = '=' ∧ base64Encode rest = []) :=
      fun hc => base64EncodeChar_ne_pad (n := b3 % 64) (by omega) hc.1
    simp only [base64Encode, base64Decode]
    rw [if_neg hne1, if_neg hne2, e1, e2, e3, e4]
    simp only [Option.some_bind]
    rw [ih hrest]
    simp only [Option.some_bind, Option.some.injEq, List.cons.injEq, and_true]
    exact ⟨by omega, by omega, by omega⟩

/-! ## Concrete fixtures (used by witnesses and counterexamples) -/

/-- An account supporting `solana:devnet`. -/
def acctDevnet : UiWalletAccount :=
  { address := "Addr1"
    chains := ["solana:devnet"]
    features := ["solana:signTransaction", "solana:signMessage"] }

/-- An account supporting only `solana:mainnet`. -/
def acctMainnetOnly : UiWalletAccount :=
  { address := "Addr1"
    chains := ["solana:mainnet"]
    features := ["solana:signAndSendTransaction"] }

/-- A small concrete transaction. -/
def tx0 : KitTransaction :=
  { messageBytes := [1, 2], signatures := [], lifetimeConstraint := none }

/-- A small concrete signable message. -/
def msg0 : SignableMessage := { content := [1, 2], signatures := [] }

/-- A signable message that already records a signature for `Addr1`. -/
def msgWithOldSig : SignableMessage :=
  { content := [1, 2], signatures := [("Addr1", [1])] }

/-- The `signTransaction` closure for `acctDevnet` on devnet. -/
def stc0 : SignTransactionClosure :=
  { standardAccount := ⟨acctDevnet⟩, chainId := "solana:devnet" }

/-- The `signMessage` closure for `acctDevnet`. -/
def smc0 : SignMessageClosure := { standardAccount := ⟨acctDevnet⟩ }

/-- The sending signer built (without any chain check) for `acctMainnetOnly`
and the unsupported chain `solana:devnet`. -/
def sendSigner0 : SendingSigner :=
  { address := "Addr1"
    standardAccount := ⟨acctMainnetOnly⟩
    chainId := "solana:devnet" }

/-- Concrete transaction partial signer for `acctDevnet`. -/
def txp0 : TxPartSigner :=
  { address := "Addr1", account := acctDevnet, signTx := stc0 }

/-- Concrete message partial signer for `acctDevnet`. -/
def msgp0 : MsgPartSigner :=
  { address := "Addr1", account := acctDevnet, signMsg := smc0 }

/-- Concrete message modifying signer for `acctDevnet`. -/
def msgm0 : MsgModSigner :=
  { address := "Addr1", account := acctDevnet, signMsg := smc0 }

/-- Concrete transaction modifying signer for `acctDevnet`. -/
def txm0 : TxModSigner :=
  { address := "Addr1", account := acctDevnet, signTx := stc0 }

/-- Concrete sending signer for `acctDevnet` on devnet. -/
def snd0 : SendingSigner :=
  { address := "Addr1", standardAccount := ⟨acctDevnet⟩, chainId := "solana:devnet" }

/-- A transaction encoder oracle: the message bytes themselves. -/
def txEnc0 : KitTransaction → Bytes := fun t => t.messageBytes

/-- A transaction decoder oracle: signed bytes become the message bytes of a
transaction carrying a signature for `Addr1`. -/
def txDec0 : Bytes → KitTransaction :=
  fun bs => { messageBytes := bs, signatures := [("Addr1", [9])], lifetimeConstraint := none }

/-- A `signTransaction` feature oracle. -/
def featTx0 : SignTxFeatureInput → List SignTxOutput :=
  fun _ => [{ signedTransaction := [7] }]

/-- A `signAndSendTransaction` feature oracle. -/
def featSend0 : SignSendFeatureInput → List SignSendOutput :=
  fun _ => [{ signature := [9] }]

/-- A `signMessage` feature oracle that echoes the message and signs `[2]`. -/
def featMsgEcho : SignMsgFeatureInput → List SignMsgRawOutput :=
  fun i => [{ signedMessage := i.message, signature := [2], signatureType := some "ed25519" }]

/-- A `signMessage` feature oracle that modifies the message to `[7]`. -/
def featMsgModified : SignMsgFeatureInput → List SignMsgRawOutput :=
  fun _ => [{ signedMessage := [7], signature := [5], signatureType := some "ed25519" }]

/-- A size-limit oracle accepting everything. -/
def sizeOk0 : KitTransaction → Bool := fun _ => true

/-- A compiled-message decoder oracle. -/
def compiledDecode0 : Bytes → CompiledMsg := fun _ => { lifetimeToken := "tok" }

/-- A lifetime fetcher oracle. -/
def freshLifetime0 : CompiledMsg → Lifetime := fun c => .blockhash c.lifetimeToken

/-- A signable message already holding the exact signature `featMsgEcho` returns. -/
def msgWithSig2 : SignableMessage :=
  { content := [1, 2], signatures := [("Addr1", [2])] }

/-- The feature input `signMessage` forwards for content `[1, 2]` of `acctDevnet`. -/
def fwdMsg0 : SignMsgFeatureInput := { message := [1, 2], account := ⟨acctDevnet⟩ }

/-- The wrapper output of `featMsgEcho` on content `[1, 2]`. -/
def outMsgEcho0 : SignMsgOutput := { signedMessage := [1, 2], signature := [2] }

/-- The feature input `signTransaction` forwards for wire bytes `[1, 2]`. -/
def fwdTx0 : SignTxFeatureInput :=
  { transaction := [1, 2], account := ⟨acctDevnet⟩, chain := "solana:devnet",
    options := none }

/-- The output of `featTx0`. -/
def outTx0 : SignTxOutput := { signedTransaction := [7] }

/-- The base64 encoding of the bytes `[1, 2]`. -/
def b64Tx0 : List Char := ['A', 'Q', 'I', '=']

/-- Destructuring a list known to have at least two elements. -/
theorem exists_two_of_one_lt {α : Type} {l : List α} (h : 1 < l.length) :
    ∃ a b t, l = a :: b :: t := by
  cases l with
  | nil => simp at h
  | cons a l' =>
    cases l' with
    | nil => simp at h
    | cons b t => exact ⟨a, b, t, rfl⟩

/-! ## Claims -/

/-- C1 counterexample: the claim includes
`useWalletAccountTransactionSendingSigner`, but that composable never consults
the account's chain list.  For an account supporting only `solana:mainnet` and
the requested chain `solana:devnet`, the computed yields a signer without any
error, and calling `signAndSendTransactions` with one transaction invokes the
underlying feature with the unsupported chain. -/
theorem C1_sendingSigner_skips_chain_check :
    useWalletAccountTransactionSendingSigner_compute (some acctMainnetOnly)
      "solana:devnet" = .ok (some sendSigner0)
    ∧ acctMainnetOnly.chains.contains "solana:devnet" = false
    ∧ (sendSigner0.signAndSendTransactions txEnc0 featSend0 [tx0] none).1 =
        some { account := ⟨acctMainnetOnly⟩, chain := "solana:devnet",
               transaction := [1, 2], options := none } := by
  refine ⟨rfl, by decide, rfl⟩

/-- C1 (amended): `useSignTransaction` and `useSignAndSendTransaction` throw a
typed `WalletStandardError` with code `WALLET_ACCOUNT_CHAIN_UNSUPPORTED` out of
the computed — before the feature is even looked up — exactly when the
requested chain is absent from the account's chain list, and only produce the
feature-invoking closure when it is present; `useWalletAccountTransactionSendingSigner`
performs no chain validation: its computed never throws and the signer forwards
the requested chain to the feature unchecked. -/
theorem C1_chain_validation (account : UiWalletAccount) (chainId : String) :
    (account.chains.contains chainId = false →
      useSignTransaction_compute (some account) chainId =
        .error (.walletStandard .WALLET_ACCOUNT_CHAIN_UNSUPPORTED account.address
          chainId SolanaSignTransaction account.chains account.features)
      ∧ useSignAndSendTransaction_compute (some account) chainId =
        .error (.walletStandard .WALLET_ACCOUNT_CHAIN_UNSUPPORTED account.address
          chainId SolanaSignAndSendTransaction account.chains account.features))
    ∧ (account.chains.contains chainId = true →
      useSignTransaction_compute (some account) chainId =
        .ok (some { standardAccount := ⟨account⟩, chainId := chainId })
      ∧ useSignAndSendTransaction_compute (some account) chainId =
        .ok (some { standardAccount := ⟨account⟩, chainId := chainId }))
    ∧ useWalletAccountTransactionSendingSigner_compute (some account) chainId =
        .ok (some { address := account.address, standardAccount := ⟨account⟩,
                    chainId := chainId }) := by
  refine ⟨fun hc => ?_, fun hc => ?_, rfl⟩
  · constructor <;>
      simp [useSignTransaction_compute, useSignAndSendTransaction_compute, hc] <;>
      simpa using hc
  · constructor <;>
      simp [useSignTransaction_compute, useSignAndSendTransaction_compute,
        getWalletAccountForUiWalletAccount, hc] <;>
      simpa using hc

/-- C1 amended witness at concrete inputs. -/
theorem C1_chain_validation_witness :
    (useSignTransaction_compute (some acctMainnetOnly) "solana:devnet" =
      .error (.walletStandard .WALLET_ACCOUNT_CHAIN_UNSUPPORTED
        acctMainnetOnly.address "solana:devnet" SolanaSignTransaction
        acctMainnetOnly.chains acctMainnetOnly.features))
    ∧ (useSignTransaction_compute (some acctDevnet) "solana:devnet" =
      .ok (some { standardAccount := ⟨acctDevnet⟩, chainId := "solana:devnet" })) :=
  ⟨((C1_chain_validation acctMainnetOnly "solana:devnet").1 (by decide)).1,
   ((C1_chain_validation acctDevnet "solana:devnet").2.1 (by decide)).1⟩

/-- C2: every signer method — `signTransactions`, `signMessages`,
`modifyAndSignTransactions`, `modifyAndSignMessages`,
`signAndSendTransactions` — rejects a batch of more than one item with a
`SolanaError` carrying `SOLANA_ERROR__SIGNER__WALLET_MULTISIGN_UNIMPLEMENTED`,
and the underlying wallet feature is never invoked (the recorded feature call
is `none`). -/
theorem C2_multisign_batch_rejected
    (txp : TxPartSigner) (msgp : MsgPartSigner) (txm : TxModSigner)
    (msgm : MsgModSigner) (snd : SendingSigner)
    (txCodecEncode : KitTransaction → Bytes)
    (txCodecDecode : Bytes → KitTransaction)
    (txEncoder : KitTransaction → Bytes)
    (sizeOk : KitTransaction → Bool) (compiledDecode : Bytes → CompiledMsg)
    (freshLifetime : CompiledMsg → Lifetime)
    (featTx : SignTxFeatureInput → List SignTxOutput)
    (featMsg : SignMsgFeatureInput → List SignMsgRawOutput)
    (featSend : SignSendFeatureInput → List SignSendOutput)
    (cfg : Option Int)
    (txs : List KitTransaction) (msgs : List SignableMessage)
    (htx : 1 < txs.length) (hmsg : 1 < msgs.length) :
    txp.signTransactions txCodecEncode txCodecDecode featTx txs =
      (none, .error (.solana .SOLANA_ERROR_SIGNER_WALLET_MULTISIGN_UNIMPLEMENTED))
    ∧ msgp.signMessages featMsg msgs =
      (none, .error (.solana .SOLANA_ERROR_SIGNER_WALLET_MULTISIGN_UNIMPLEMENTED))
    ∧ txm.modifyAndSignTransactions txCodecEncode txCodecDecode sizeOk
        compiledDecode freshLifetime featTx txs =
      (none, .error (.solana .SOLANA_ERROR_SIGNER_WALLET_MULTISIGN_UNIMPLEMENTED))
    ∧ msgm.modifyAndSignMessages featMsg msgs =
      (none, .error (.solana .SOLANA_ERROR_SIGNER_WALLET_MULTISIGN_UNIMPLEMENTED))
    ∧ snd.signAndSendTransactions txEncoder featSend txs cfg =
      (none, .error (.solana .SOLANA_ERROR_SIGNER_WALLET_MULTISIGN_UNIMPLEMENTED)) := by
  obtain ⟨t1, t2, trest, rfl⟩ := exists_two_of_one_lt htx
  obtain ⟨m1, m2, mrest, rfl⟩ := exists_two_of_one_lt hmsg
  exact ⟨rfl, rfl, rfl, rfl, rfl⟩

/-- C2 witness at concrete two-element batches. -/
theorem C2_multisign_batch_rejected_witness :
    txp0.signTransactions txEnc0 txDec0 featTx0 [tx0, tx0] =
      (none, .error (.solana .SOLANA_ERROR_SIGNER_WALLET_MULTISIGN_UNIMPLEMENTED))
    ∧ msgp0.signMessages featMsgEcho [msg0, msg0] =
      (none, .error (.solana .SOLANA_ERROR_SIGNER_WALLET_MULTISIGN_UNIMPLEMENTED))
    ∧ txm0.modifyAndSignTransactions txEnc0 txDec0 sizeOk0 compiledDecode0
        freshLifetime0 featTx0 [tx0, tx0] =
      (none, .error (.solana .SOLANA_ERROR_SIGNER_WALLET_MULTISIGN_UNIMPLEMENTED))
    ∧ msgm0.modifyAndSignMessages featMsgEcho [msg0, msg0] =
      (none, .error (.solana .SOLANA_ERROR_SIGNER_WALLET_MULTISIGN_UNIMPLEMENTED))
    ∧ snd0.signAndSendTransactions txEnc0 featSend0 [tx0, tx0] none =
      (none, .error (.solana .SOLANA_ERROR_SIGNER_WALLET_MULTISIGN_UNIMPLEMENTED)) :=
  C2_multisign_batch_rejected txp0 msgp0 txm0 msgm0 snd0 txEnc0 txDec0 txEnc0
    sizeOk0 compiledDecode0 freshLifetime0 featTx0 featMsgEcho featSend0 none
    [tx0, tx0] [msg0, msg0] (by decide) (by decide)

/-- C3: every composable taking an account reference resolves to null when the
account value is null, and — for a chain the account supports — to a non-null
closure or signer object when the account value is non-null; quantifying over
all account values captures every reactive recomputation. -/
theorem C3_null_propagation_and_availability (account : UiWalletAccount)
    (chainId : String) (hchain : account.chains.contains chainId = true) :
    useSignTransaction_compute none chainId = .ok none
    ∧ useSignAndSendTransaction_compute none chainId = .ok none
    ∧ useSignMessage_compute none = .ok none
    ∧ useWalletAccountTransactionPartialSigner_compute none chainId = .ok none
    ∧ useWalletAccountMessagePartialSigner_compute none = .ok none
    ∧ useWalletAccountMessageModifyingSigner_compute none = .ok none
    ∧ useWalletAccountTransactionSigner_compute none chainId = .ok none
    ∧ useWalletAccountTransactionSendingSigner_compute none chainId = .ok none
    ∧ useWalletAccountPartialSigner_compute none chainId = .ok none
    ∧ (∃ c, useSignTransaction_compute (some account) chainId = .ok (some c))
    ∧ (∃ c, useSignAndSendTransaction_compute (some account) chainId = .ok (some c))
    ∧ (∃ c, useSignMessage_compute (some account) = .ok (some c))
    ∧ (∃ s, useWalletAccountTransactionPartialSigner_compute (some account) chainId
        = .ok (some s))
    ∧ (∃ s, useWalletAccountMessagePartialSigner_compute (some account) = .ok (some s))
    ∧ (∃ s, useWalletAccountMessageModifyingSigner_compute (some account) = .ok (some s))
    ∧ (∃ s, useWalletAccountTransactionSigner_compute (some account) chainId
        = .ok (some s))
    ∧ (∃ s, useWalletAccountTransactionSendingSigner_compute (some account) chainId
        = .ok (some s))
    ∧ (∃ s, useWalletAccountPartialSigner_compute (some account) chainId
        = .ok (some s)) := by
  have hm : chainId ∈ account.chains := by simpa using hchain
  have h1 : useSignTransaction_compute (some account) chainId
      = .ok (some { standardAccount := ⟨account⟩, chainId := chainId }) := by
    simp [useSignTransaction_compute, getWalletAccountForUiWalletAccount, hm]
  have h2 : useSignAndSendTransaction_compute (some account) chainId
      = .ok (some { standardAccount := ⟨account⟩, chainId := chainId }) := by
    simp [useSignAndSendTransaction_compute, getWalletAccountForUiWalletAccount, hm]
  have h3 : useSignMessage_compute (some account)
      = .ok (some { standardAccount := ⟨account⟩ }) := rfl
  have h4 : useWalletAccountTransactionPartialSigner_compute (some account) chainId
      = .ok (some { address := kitAddress account.address, account := account,
                    signTx := { standardAccount := ⟨account⟩, chainId := chainId } }) := by
    simp [useWalletAccountTransactionPartialSigner_compute, h1]
  have h5 : useWalletAccountMessagePartialSigner_compute (some account)
      = .ok (some { address := kitAddress account.address, account := account,
                    signMsg := { standardAccount := ⟨account⟩ } }) := rfl
  have h6 : useWalletAccountMessageModifyingSigner_compute (some account)
      = .ok (some { address := kitAddress account.address, account := account,
                    signMsg := { standardAccount := ⟨account⟩ } }) := rfl
  have h7 : useWalletAccountTransactionSigner_compute (some account) chainId
      = .ok (some { address := kitAddress account.address, account := account,
                    signTx := { standardAccount := ⟨account⟩, chainId := chainId } }) := by
    simp [useWalletAccountTransactionSigner_compute, h1]
  have h8 : useWalletAccountTransactionSendingSigner_compute (some account) chainId
      = .ok (some { address := kitAddress account.address,
                    standardAccount := ⟨account⟩, chainId := chainId }) := rfl
  have h9 : useWalletAccountPartialSigner_compute (some account) chainId
      = .ok (some
          { txSigner := { address := kitAddress account.address,
                          account := account,
                          signTx := { standardAccount := ⟨account⟩,
                                      chainId := chainId } },
            msgSigner := { address := kitAddress account.address,
                           account := account,
                           signMsg := { standardAccount := ⟨account⟩ } },
            address := kitAddress account.address }) := by
    simp [useWalletAccountPartialSigner_compute, h4, h5]
  exact ⟨rfl, rfl, rfl, rfl, rfl, rfl, rfl, rfl, rfl,
    ⟨_, h1⟩, ⟨_, h2⟩, ⟨_, h3⟩, ⟨_, h4⟩, ⟨_, h5⟩, ⟨_, h6⟩, ⟨_, h7⟩, ⟨_, h8⟩, ⟨_, h9⟩⟩

/-- C3 witness at a concrete account and chain (the binder-free conjuncts of
the instantiated conclusion). -/
theorem C3_null_propagation_and_availability_witness :
    useSignTransaction_compute none "solana:devnet" = .ok none
    ∧ useSignAndSendTransaction_compute none "solana:devnet" = .ok none
    ∧ useSignMessage_compute none = .ok none
    ∧ useWalletAccountTransactionPartialSigner_compute none "solana:devnet" = .ok none
    ∧ useWalletAccountMessagePartialSigner_compute none = .ok none
    ∧ useWalletAccountMessageModifyingSigner_compute none = .ok none
    ∧ useWalletAccountTransactionSigner_compute none "solana:devnet" = .ok none
    ∧ useWalletAccountTransactionSendingSigner_compute none "solana:devnet" = .ok none
    ∧ useWalletAccountPartialSigner_compute none "solana:devnet" = .ok none := by
  have h := C3_null_propagation_and_availability acctDevnet "solana:devnet" (by decide)
  exact ⟨h.1, h.2.1, h.2.2.1, h.2.2.2.1, h.2.2.2.2.1, h.2.2.2.2.2.1,
    h.2.2.2.2.2.2.1, h.2.2.2.2.2.2.2.1, h.2.2.2.2.2.2.2.2.1⟩

/-- C4: the closures returned by `useSignTransaction` and
`useSignAndSendTransaction` forward to the feature an object holding exactly
the input's fields other than `options` unchanged (the one such field is
`transaction`), plus the resolved standard account and the requested chain;
the numeric `options.minContextSlot` is present exactly when the input's
`options.minContextSlot` is, with the same numeric value; and the caller
receives the first element of the array the feature resolves to. -/
theorem C4_forwarding_exact (c : SignTransactionClosure)
    (feature : SignTxFeatureInput → List SignTxOutput) (input : SignTxInput)
    (c2 : SignAndSendTransactionClosure)
    (feature2 : SignSendFeatureInput → List SignSendOutput)
    (input2 : SignSendInput) :
    (c.call feature input).1.transaction = input.transaction
    ∧ (c.call feature input).1.account = c.standardAccount
    ∧ (c.call feature input).1.chain = c.chainId
    ∧ (c.call feature input).1.options.map SignTxOptionsOut.minContextSlot
        = (input.options.bind SignTxOptionsIn.minContextSlot).map jsNumber
    ∧ (c.call feature input).1.options.isSome
        = (input.options.bind SignTxOptionsIn.minContextSlot).isSome
    ∧ (c.call feature input).2 = (feature (c.call feature input).1).head?
    ∧ (c2.call feature2 input2).1.transaction = input2.transaction
    ∧ (c2.call feature2 input2).1.account = c2.standardAccount
    ∧ (c2.call feature2 input2).1.chain = c2.chainId
    ∧ (c2.call feature2 input2).1.options.map SignTxOptionsOut.minContextSlot
        = (input2.options.bind SignTxOptionsIn.minContextSlot).map jsNumber
    ∧ (c2.call feature2 input2).1.options.isSome
        = (input2.options.bind SignTxOptionsIn.minContextSlot).isSome
    ∧ (c2.call feature2 input2).2 = (feature2 (c2.call feature2 input2).1).head? := by
  unfold SignTransactionClosure.call signTransactionForward
    SignAndSendTransactionClosure.call signAndSendTransactionForward
  refine ⟨rfl, rfl, rfl, ?_, ?_, rfl, rfl, rfl, rfl, ?_, ?_, rfl⟩
  · cases input.options.bind (fun o => o.minContextSlot) <;> rfl
  · cases input.options.bind (fun o => o.minContextSlot) <;> rfl
  · cases input2.options.bind (fun o => o.minContextSlot) <;> rfl
  · cases input2.options.bind (fun o => o.minContextSlot) <;> rfl

/-- C5: every signer object produced by the signer composables — the five
single-interface signers and the three combined signers — carries an address
equal to the resolved account's address, for every account value (hence at
every reactive recomputation). -/
theorem C5_signer_address_matches_account (account : UiWalletAccount)
    (chainId : String) :
    (∀ s, useWalletAccountTransactionPartialSigner_compute (some account) chainId
        = .ok (some s) → s.address = account.address)
    ∧ (∀ s, useWalletAccountMessagePartialSigner_compute (some account)
        = .ok (some s) → s.address = account.address)
    ∧ (∀ s, useWalletAccountMessageModifyingSigner_compute (some account)
        = .ok (some s) → s.address = account.address)
    ∧ (∀ s, useWalletAccountTransactionSigner_compute (some account) chainId
        = .ok (some s) → s.address = account.address)
    ∧ (∀ s, useWalletAccountTransactionSendingSigner_compute (some account) chainId
        = .ok (some s) → s.address = account.address)
    ∧ (∀ s, useWalletAccountPartialSigner_compute (some account) chainId
        = .ok (some s) → s.address = account.address)
    ∧ (∀ s, useWalletAccountModifyingSigner_compute (some account) chainId
        = .ok (some s) → s.address = account.address)
    ∧ (∀ s, useWalletAccountSigner_compute (some account) chainId
        = .ok (some s) → s.address = account.address) := by
  have hmsgp : ∀ s, useWalletAccountMessagePartialSigner_compute (some account)
      = .ok (some s) → s.address = account.address := by
    intro s hs
    have : useWalletAccountMessagePartialSigner_compute (some account)
        = .ok (some { address := kitAddress account.address, account := account,
                      signMsg := { standardAccount := ⟨account⟩ } }) := rfl
    rw [this] at hs
    simp only [Except.ok.injEq, Option.some.injEq] at hs
    subst hs
    rfl
  have hmsgm : ∀ s, useWalletAccountMessageModifyingSigner_compute (some account)
      = .ok (some s) → s.address = account.address := by
    intro s hs
    have : useWalletAccountMessageModifyingSigner_compute (some account)
        = .ok (some { address := kitAddress account.address, account := account,
                      signMsg := { standardAccount := ⟨account⟩ } }) := rfl
    rw [this] at hs
    simp only [Except.ok.injEq, Option.some.injEq] at hs
    subst hs
    rfl
  have hsnd : ∀ s, useWalletAccountTransactionSendingSigner_compute (some account)
      chainId = .ok (some s) → s.address = account.address := by
    intro s hs
    have : useWalletAccountTransactionSendingSigner_compute (some account) chainId
        = .ok (some { address := kitAddress account.address,
                      standardAccount := ⟨account⟩, chainId := chainId }) := rfl
    rw [this] at hs
    simp only [Except.ok.injEq, Option.some.injEq] at hs
    subst hs
    rfl
  have hws : ∀ s, useWalletAccountSigner_compute (some account) chainId
      = .ok (some s) → s.address = account.address := by
    intro s hs
    have : useWalletAccountSigner_compute (some account) chainId
        = .ok (some
            { txSigner := { address := kitAddress account.address,
                            standardAccount := ⟨account⟩,
                            chainId := chainId },
              msgSigner := { address := kitAddress account.address },
              address := kitAddress account.address }) := rfl
    rw [this] at hs
    simp only [Except.ok.injEq, Option.some.injEq] at hs
    subst hs
    rfl
  by_cases hc : account.chains.contains chainId
  · have hm : chainId ∈ account.chains := by simpa using hc
    have h1 : useSignTransaction_compute (some account) chainId
        = .ok (some { standardAccount := ⟨account⟩, chainId := chainId }) := by
      simp [useSignTransaction_compute, getWalletAccountForUiWalletAccount, hm]
    have htxp : useWalletAccountTransactionPartialSigner_compute (some account) chainId
        = .ok (some { address := kitAddress account.address, account := account,
                      signTx := { standardAccount := ⟨account⟩, chainId := chainId } }) := by
      simp [useWalletAccountTransactionPartialSigner_compute, h1]
    have htxm : useWalletAccountTransactionSigner_compute (some account) chainId
        = .ok (some { address := kitAddress account.address, account := account,
                      signTx := { standardAccount := ⟨account⟩, chainId := chainId } }) := by
      simp [useWalletAccountTransactionSigner_compute, h1]
    have hcp : useWalletAccountPartialSigner_compute (some account) chainId
        = .ok (some
            { txSigner := { address := kitAddress account.address,
                            account := account,
                            signTx := { standardAccount := ⟨account⟩,
                                        chainId := chainId } },
              msgSigner := { address := kitAddress account.address,
                             account := account,
                             signMsg := { standardAccount := ⟨account⟩ } },
              address := kitAddress account.address }) := by
      simp [useWalletAccountPartialSigner_compute, htxp,
        useWalletAccountMessagePartialSigner_compute, useSignMessage_compute,
        getWalletAccountForUiWalletAccount]
    have hcm : useWalletAccountModifyingSigner_compute (some account) chainId
        = .ok (some
            { txSigner := { address := kitAddress account.address,
                            account := account,
                            signTx := { standardAccount := ⟨account⟩,
                                        chainId := chainId } },
              msgSigner := { address := kitAddress account.address,
                             account := account,
                             signMsg := { standardAccount := ⟨account⟩ } },
              address := kitAddress account.address }) := by
      simp [useWalletAccountModifyingSigner_compute, htxm,
        useWalletAccountMessageModifyingSigner_compute, useSignMessage_compute,
        getWalletAccountForUiWalletAccount]
    refine ⟨?_, hmsgp, hmsgm, ?_, hsnd, ?_, ?_, hws⟩ <;> intro s hs
    · rw [htxp] at hs
      simp only [Except.ok.injEq, Option.some.injEq] at hs
      subst hs
      rfl
    · rw [htxm] at hs
      simp only [Except.ok.injEq, Option.some.injEq] at hs
      subst hs
      rfl
    · rw [hcp] at hs
      simp only [Except.ok.injEq, Option.some.injEq] at hs
      subst hs
      rfl
    · rw [hcm] at hs
      simp only [Except.ok.injEq, Option.some.injEq] at hs
      subst hs
      rfl
  · have hm : chainId ∉ account.chains := by simpa using hc
    have h1 : useSignTransaction_compute (some account) chainId
        = .error (.walletStandard .WALLET_ACCOUNT_CHAIN_UNSUPPORTED account.address
            chainId SolanaSignTransaction account.chains account.features) := by
      simp [useSignTransaction_compute, hm]
    have htxp : useWalletAccountTransactionPartialSigner_compute (some account) chainId
        = .error (.walletStandard .WALLET_ACCOUNT_CHAIN_UNSUPPORTED account.address
            chainId SolanaSignTransaction account.chains account.features) := by
      simp [useWalletAccountTransactionPartialSigner_compute, h1]
    have htxm : useWalletAccountTransactionSigner_compute (some account) chainId
        = .error (.walletStandard .WALLET_ACCOUNT_CHAIN_UNSUPPORTED account.address
            chainId SolanaSignTransaction account.chains account.features) := by
      simp [useWalletAccountTransactionSigner_compute, h1]
    have hcp : useWalletAccountPartialSigner_compute (some account) chainId
        = .error (.walletStandard .WALLET_ACCOUNT_CHAIN_UNSUPPORTED account.address
            chainId SolanaSignTransaction account.chains account.features) := by
      simp [useWalletAccountPartialSigner_compute, htxp]
    have hcm : useWalletAccountModifyingSigner_compute (some account) chainId
        = .error (.walletStandard .WALLET_ACCOUNT_CHAIN_UNSUPPORTED account.address
            chainId SolanaSignTransaction account.chains account.features) := by
      simp [useWalletAccountModifyingSigner_compute, htxm]
    refine ⟨?_, hmsgp, hmsgm, ?_, hsnd, ?_, ?_, hws⟩ <;> intro s hs
    · rw [htxp] at hs
      exact Except.noConfusion hs
    · rw [htxm] at hs
      exact Except.noConfusion hs
    · rw [hcp] at hs
      exact Except.noConfusion hs
    · rw [hcm] at hs
      exact Except.noConfusion hs

/-- C5 witness at a concrete account, chain and the produced signers. -/
theorem C5_signer_address_matches_account_witness :
    txp0.address = acctDevnet.address
    ∧ msgp0.address = acctDevnet.address
    ∧ msgm0.address = acctDevnet.address
    ∧ txm0.address = acctDevnet.address
    ∧ snd0.address = acctDevnet.address :=
  ⟨(C5_signer_address_matches_account acctDevnet "solana:devnet").1 txp0 rfl,
   (C5_signer_address_matches_account acctDevnet "solana:devnet").2.1 msgp0 rfl,
   (C5_signer_address_matches_account acctDevnet "solana:devnet").2.2.1 msgm0 rfl,
   (C5_signer_address_matches_account acctDevnet "solana:devnet").2.2.2.1 txm0 rfl,
   (C5_signer_address_matches_account acctDevnet "solana:devnet").2.2.2.2.1 snd0 rfl⟩

/-- C6 counterexample: when the wallet leaves the message unmodified but
returns a signature differing from the one already recorded under the signer's
own address, the spread merge overrides that entry, so the returned dictionary
does not contain every entry of the original dictionary. -/
theorem C6_spread_overrides_entry_cx :
    (msgm0.modifyAndSignMessages featMsgEcho [msgWithOldSig]).2
      = .ok [{ content := [1, 2], signatures := [("Addr1", [2])] }]
    ∧ ("Addr1", ([1] : Bytes)) ∈ msgWithOldSig.signatures
    ∧ jsMessageWasModified msgWithOldSig.content [1, 2] = false
    ∧ ("Addr1", ([1] : Bytes)) ∉ ([("Addr1", [2])] : SigDict) :=
  ⟨rfl, by decide, by decide, by decide⟩

/-- C6 (amended): signature dictionaries map addresses to raw signature bytes;
the partial signers resolve to a fresh single-entry dictionary mapping the
signer's address to the obtained signature; and `modifyAndSignMessages`, when
the wallet did not modify the message and the signature is new, returns the
object-spread merge of the original dictionary with the new signature: every
entry at an address other than the signer's is kept, and the signer's address
maps to the new signature, overriding any previously recorded entry. -/
theorem C6_signature_dictionary_merge
    (sp : MsgPartSigner) (tp : TxPartSigner) (s : MsgModSigner)
    (featMsg : SignMsgFeatureInput → List SignMsgRawOutput)
    (featTx : SignTxFeatureInput → List SignTxOutput)
    (txCodecEncode : KitTransaction → Bytes)
    (txCodecDecode : Bytes → KitTransaction)
    (m : SignableMessage) (tx : KitTransaction)
    (fwdM : SignMsgFeatureInput) (outM : SignMsgOutput)
    (fwdT : SignTxFeatureInput) (outT : SignTxOutput) (sigT : Bytes)
    (hcallM : sp.signMsg.call featMsg { message := m.content } = (fwdM, some outM))
    (hcallT : tp.signTx.call featTx
      { transaction := txCodecEncode tx, options := none } = (fwdT, some outT))
    (hsigT : dictGet (txCodecDecode outT.signedTransaction).signatures
      (kitAddress tp.account.address) = some sigT)
    (fwdMM : SignMsgFeatureInput) (outMM : SignMsgOutput)
    (hcallMM : s.signMsg.call featMsg { message := m.content } = (fwdMM, some outMM))
    (hunmod : jsMessageWasModified m.content outMM.signedMessage = false)
    (hnew : jsSignatureIsNew m.signatures s.account.address outMM.signature = true) :
    sp.signMessages featMsg [m] =
      (some fwdM, .ok [[(kitAddress sp.account.address, outM.signature)]])
    ∧ tp.signTransactions txCodecEncode txCodecDecode featTx [tx] =
      (some fwdT, .ok [[(kitAddress tp.account.address, sigT)]])
    ∧ s.modifyAndSignMessages featMsg [m] =
      (some fwdMM, .ok [{ content := outMM.signedMessage,
                          signatures := dictSet m.signatures s.account.address
                            outMM.signature }])
    ∧ dictGet (dictSet m.signatures s.account.address outMM.signature)
        s.account.address = some outMM.signature
    ∧ (∀ k, k ≠ s.account.address →
        dictGet (dictSet m.signatures s.account.address outMM.signature) k
          = dictGet m.signatures k)
    ∧ (∀ p ∈ m.signatures, p.1 ≠ s.account.address →
        p ∈ dictSet m.signatures s.account.address outMM.signature) := by
  refine ⟨?_, ?_, ?_, dictGet_dictSet_self _ _ _,
    fun k hk => dictGet_dictSet_ne _ _ _ _ hk,
    fun p hp hne => mem_dictSet_of_ne _ _ _ _ hp hne⟩
  · simp [MsgPartSigner.signMessages, hcallM]
  · simp [TxPartSigner.signTransactions, hcallT, hsigT]
  · simp [MsgModSigner.modifyAndSignMessages, hcallMM, hunmod, hnew]

/-- C6 amended witness at concrete signers, messages and wallet responses. -/
theorem C6_signature_dictionary_merge_witness :
    msgp0.signMessages featMsgEcho [msgWithOldSig] =
      (some fwdMsg0, .ok [[(kitAddress msgp0.account.address, outMsgEcho0.signature)]])
    ∧ txp0.signTransactions txEnc0 txDec0 featTx0 [tx0] =
      (some fwdTx0, .ok [[(kitAddress txp0.account.address, [9])]])
    ∧ msgm0.modifyAndSignMessages featMsgEcho [msgWithOldSig] =
      (some fwdMsg0, .ok [{ content := outMsgEcho0.signedMessage,
                            signatures := dictSet msgWithOldSig.signatures
                              msgm0.account.address outMsgEcho0.signature }])
    ∧ dictGet (dictSet msgWithOldSig.signatures msgm0.account.address
        outMsgEcho0.signature) msgm0.account.address = some outMsgEcho0.signature := by
  have h := C6_signature_dictionary_merge msgp0 txp0 msgm0 featMsgEcho featTx0
    txEnc0 txDec0 msgWithOldSig tx0 fwdMsg0 outMsgEcho0 fwdTx0 outTx0 [9]
    rfl rfl rfl fwdMsg0 outMsgEcho0 rfl (by decide) (by decide)
  exact ⟨h.1, h.2.1, h.2.2.1, h.2.2.2.1⟩

/-- C7: `signTransaction` of `useSolanaTransaction` forwards to the wallet
feature exactly the base64 decoding of the input string, returns exactly the
base64 encoding of the signed bytes the wallet returned, and base64-decoding
the returned string recovers the wallet's signed bytes. -/
theorem C7_base64_forward_and_roundtrip (account : UiWalletAccount)
    (feature : SignTxFeatureInput → List SignTxOutput)
    (transaction : List Char) (optChain : Option String) (wireBytes : Bytes)
    (hdec : base64Decode transaction = some wireBytes)
    (r : SignTxOutput) (rs : List SignTxOutput)
    (hfeat : feature { transaction := wireBytes, account := ⟨account⟩,
                       chain := optChain.getD "solana:devnet",
                       options := none } = r :: rs)
    (hbytes : ∀ b ∈ r.signedTransaction, b < 256) :
    useSolanaTransaction_signTransaction (some account) feature transaction optChain
      = ([true, false],
         some { transaction := wireBytes, account := ⟨account⟩,
                chain := optChain.getD "solana:devnet", options := none },
         .ok (base64Encode r.signedTransaction))
    ∧ base64Decode (base64Encode r.signedTransaction) = some r.signedTransaction := by
  constructor
  · simp [useSolanaTransaction_signTransaction, hdec,
      getWalletAccountForUiWalletAccount, hfeat]
  · exact base64_roundTrip _ hbytes

/-- C7 witness at a concrete base64 transaction and wallet response. -/
theorem C7_base64_forward_and_roundtrip_witness :
    useSolanaTransaction_signTransaction (some acctDevnet) featTx0 b64Tx0 none
      = ([true, false],
         some { transaction := [1, 2], account := ⟨acctDevnet⟩,
                chain := "solana:devnet", options := none },
         .ok (base64Encode outTx0.signedTransaction))
    ∧ base64Decode (base64Encode outTx0.signedTransaction)
      = some outTx0.signedTransaction :=
  C7_base64_forward_and_roundtrip acctDevnet featTx0 b64Tx0 none [1, 2] rfl
    outTx0 [] rfl (by decide)

/-- C8: in `modifyAndSignMessages`, a wallet response that echoes the message
and a signature byte-for-byte equal to the one already recorded under the
signer's address makes the method return the original messages array as-is
(no new message object, dictionary untouched); and when the wallet modified
the message, the returned dictionary holds only the signer's new signature,
discarding all previously collected ones. -/
theorem C8_modify_identity_and_reset (s : MsgModSigner)
    (feature : SignMsgFeatureInput → List SignMsgRawOutput)
    (m : SignableMessage) (fwd : SignMsgFeatureInput) (out : SignMsgOutput)
    (hcall : s.signMsg.call feature { message := m.content } = (fwd, some out)) :
    (out.signedMessage = m.content →
     dictGet m.signatures s.account.address = some out.signature →
     s.modifyAndSignMessages feature [m] = (some fwd, .ok [m]))
    ∧ (jsMessageWasModified m.content out.signedMessage = true →
       s.modifyAndSignMessages feature [m] = (some fwd,
         .ok [{ content := out.signedMessage,
                signatures := [(s.account.address, out.signature)] }])) := by
  constructor
  · intro hEq hOld
    simp [MsgModSigner.modifyAndSignMessages, hcall, jsSignatureIsNew, hOld, hEq,
      jsMessageWasModified_self, jsSignatureMatches_self]
  · intro hMod
    simp [MsgModSigner.modifyAndSignMessages, hcall, hMod]

/-- C8 witness: an echoed message with the recorded signature, and a modified
message. -/
theorem C8_modify_identity_and_reset_witness :
    msgm0.modifyAndSignMessages featMsgEcho [msgWithSig2]
      = (some fwdMsg0, .ok [msgWithSig2])
    ∧ msgm0.modifyAndSignMessages featMsgModified [msg0] =
        (some fwdMsg0, .ok [{ content := [7], signatures := [("Addr1", [5])] }]) :=
  ⟨(C8_modify_identity_and_reset msgm0 featMsgEcho msgWithSig2 fwdMsg0 outMsgEcho0
      rfl).1 rfl (by decide),
   (C8_modify_identity_and_reset msgm0 featMsgModified msg0 fwdMsg0
      { signedMessage := [7], signature := [5] } rfl).2 (by decide)⟩

/-- C9: an empty input batch resolves to an empty result array and the
underlying wallet feature is never invoked, for all five signer methods. -/
theorem C9_empty_batch_no_call (txp : TxPartSigner) (msgp : MsgPartSigner)
    (txm : TxModSigner) (msgm : MsgModSigner) (snd : SendingSigner)
    (txCodecEncode : KitTransaction → Bytes)
    (txCodecDecode : Bytes → KitTransaction)
    (txEncoder : KitTransaction → Bytes) (sizeOk : KitTransaction → Bool)
    (compiledDecode : Bytes → CompiledMsg) (freshLifetime : CompiledMsg → Lifetime)
    (featTx : SignTxFeatureInput → List SignTxOutput)
    (featMsg : SignMsgFeatureInput → List SignMsgRawOutput)
    (featSend : SignSendFeatureInput → List SignSendOutput) (cfg : Option Int) :
    txp.signTransactions txCodecEncode txCodecDecode featTx [] = (none, .ok [])
    ∧ msgp.signMessages featMsg [] = (none, .ok [])
    ∧ txm.modifyAndSignTransactions txCodecEncode txCodecDecode sizeOk
        compiledDecode freshLifetime featTx [] = (none, .ok [])
    ∧ msgm.modifyAndSignMessages featMsg [] = (none, .ok [])
    ∧ snd.signAndSendTransactions txEncoder featSend [] cfg = (none, .ok []) :=
  ⟨rfl, rfl, rfl, rfl, rfl⟩

/-- C10: the `signing` flag of `useSolanaTransaction` starts `false`; a call
with no connected account throws without ever writing the flag; a call with an
account writes exactly `true` on entry and `false` on exit, both when the
underlying feature call resolves and when the body rejects. -/
theorem C10_signing_flag_lifecycle (account : UiWalletAccount)
    (feature : SignTxFeatureInput → List SignTxOutput)
    (transaction : List Char) (optChain : Option String) :
    useSolanaTransaction_initialSigning = false
    ∧ useSolanaTransaction_signTransaction none feature transaction optChain
      = ([], none, .error (.plain "No wallet account connected"))
    ∧ (useSolanaTransaction_signTransaction (some account) feature transaction
        optChain).1 = [true, false] := by
  refine ⟨rfl, rfl, ?_⟩
  simp only [useSolanaTransaction_signTransaction]
  split
  · rfl
  · split <;> rfl

end SolanaVue
